import Mathlib

/-!
Shallow embedding of the issue-lifecycle / claim-coordination core of the
citybeatflow server (src/server/index.js) and proofs about its behaviour.

Modelling conventions:
* Mongo documents become Lean structures; the issue collection is an
  association list from id strings to `Issue` records, mirroring `findById` /
  `findByIdAndUpdate` / `save` on single documents.
* Timestamps (`Date.now()`, `new Date()`) are milliseconds since the epoch,
  modelled as `Int`.
* JavaScript `x || d` on strings treats the empty string as falsy; `strOr`
  reproduces that.  Optional request-body fields are `Option`.
* Each HTTP handler becomes a pure function from the store (plus its request
  parameters and the current time) to a response, the updated store, and the
  list of notification e-mails handed to the `sendEmail` dispatcher (the
  dispatcher itself is best-effort and may drop them; the claims are about
  whether a send attempt is made at all).
-/

namespace CityBeatFlow

/-- JavaScript `o || d` for an optional string: `undefined` and `""` both
fall through to the default. -/
def strOr (o : Option String) (d : String) : String :=
  match o with
  | some s => if s = "" then d else s
  | none => d

/-- JavaScript `o || d` for an optional numeric value: `undefined` and `0`
both fall through to the default (used for `body.reportedAt || new Date()`). -/
def intOr (o : Option Int) (d : Int) : Int :=
  match o with
  | some n => if n = 0 then d else n
  | none => d

/-- One entry of `Issue.statusHistory`: `{ status, date, by }`.  The source
field `by` is a Lean keyword, rendered here as `actor`. -/
structure StatusEntry where
  status : String
  date : Int
  actor : String
deriving Repr, DecidableEq

/-- One entry of `Issue.updates`: `{ text, date, by }`. -/
structure UpdateEntry where
  text : String
  date : Int
  actor : String
deriving Repr, DecidableEq

/-- The `Issue` document (IssueSchema), restricted to the fields the
lifecycle / claim / escalation / notification logic reads or writes.
`location`, `attachments`, `claimUpdates` and `eventId` are untouched by the
operations under study and are omitted. -/
structure Issue where
  title : String
  description : String
  category : String
  status : String
  reportedBy : String
  reporterEmail : Option String
  reportedAt : Int
  verificationCount : Nat
  priority : String
  statusHistory : List StatusEntry
  updates : List UpdateEntry
  claimedByNGO : String
  claimStatus : String
  escalated : Bool
deriving Repr, DecidableEq

/-- `NGO.impactStats`. -/
structure ImpactStats where
  issuesClaimed : Nat
  issuesSolved : Nat
  volunteerHours : Nat
  resourcesRaised : Nat
deriving Repr, DecidableEq

/-- The `NGO` document (NGOSchema), restricted to the fields used by the
claim / update endpoints. -/
structure NGO where
  name : String
  email : String
  profile : String
  impactStats : ImpactStats
deriving Repr, DecidableEq

/-- The `Profile` document (ProfileSchema), restricted to the fields used by
the notification gate. -/
structure Profile where
  fullName : String
  email : String
  notifyByEmail : Bool
deriving Repr, DecidableEq

/-- The record store: issues keyed by id plus the NGO and Profile
collections. -/
structure Store where
  issues : List (String × Issue)
  ngos : List NGO
  profiles : List Profile
deriving Repr, DecidableEq

/-- A message handed to the `sendEmail` dispatcher.  The source field `to`
is a Lean token, rendered here as `dest`; the body text is irrelevant to the
claims. -/
structure EmailMsg where
  dest : String
  subject : String
deriving Repr, DecidableEq

/-- Outcome of a handler, mirroring the HTTP responses: `ok` is the JSON
200/201 body, `notFound` a 404 `{error}` payload, `serverError` a 500. -/
inductive ApiResult (α : Type) where
  | ok : α → ApiResult α
  | notFound : String → ApiResult α
  | serverError : String → ApiResult α
deriving Repr, DecidableEq

/-- Association-list lookup for the issue collection. -/
def lookupIssue : List (String × Issue) → String → Option Issue
  | [], _ => none
  | (k, v) :: rest, id => if k = id then some v else lookupIssue rest id

/-- `Issue.findById` on the store. -/
def findIssue (st : Store) (id : String) : Option Issue :=
  lookupIssue st.issues id

/-- Write back a single issue document by id (the effect of
`findByIdAndUpdate` / `issue.save()`). -/
def setIssue : List (String × Issue) → String → Issue → List (String × Issue)
  | [], _, _ => []
  | (k, v) :: rest, id, i =>
      if k = id then (k, i) :: rest else (k, v) :: setIssue rest id i

/-- `NGO.findOne({email})`. -/
def findNgo : List NGO → String → Option NGO
  | [], _ => none
  | g :: gs, e => if g.email = e then some g else findNgo gs e

/-- `NGO.findOne({email: ngoEmail})` where `ngoEmail` may be absent from the
request body.  Mongoose strips `undefined`-valued keys from query filters,
so an absent `ngoEmail` runs the call as `findOne({})`, which returns the
first NGO record whenever the collection is non-empty. -/
def ngoLookup (ngos : List NGO) (email : Option String) : Option NGO :=
  match email with
  | some e => findNgo ngos e
  | none => ngos.head?

/-- Save an updated NGO document: replaces the first record with the given
email (emails are unique in the collection). -/
def saveNgo : List NGO → String → (NGO → NGO) → List NGO
  | [], _, _ => []
  | g :: gs, e, f => if g.email = e then f g :: gs else g :: saveNgo gs e f

/-- `Profile.findOne({email})`. -/
def findProfile : List Profile → String → Option Profile
  | [], _ => none
  | p :: ps, e => if p.email = e then some p else findProfile ps e

/-- The notification gate used by every notifying handler:
`!profile || profile.notifyByEmail !== false`.  A missing profile defaults
to notify. -/
def notifyGate (profiles : List Profile) (email : String) : Bool :=
  match findProfile profiles email with
  | none => true
  | some p => p.notifyByEmail

/-- The `if (issue.reporterEmail) { ... }` notification block shared by the
notifying handlers: produces the list of messages handed to `sendEmail`
(one when the gate passes, none otherwise). -/
def reporterEmails (profiles : List Profile) (i : Issue) (subject : String) :
    List EmailMsg :=
  match i.reporterEmail with
  | none => []
  | some e =>
      if e = "" then []
      else if notifyGate profiles e then [⟨e, subject⟩] else []

/-! ### Per-issue effects of the mutating handlers -/

/-- Effect on the issue document of `POST /api/issues/:id/claim`:
`findByIdAndUpdate(id, { claimedByNGO: ngo, claimStatus: 'claimed',
status: 'community-in-progress' })`.  Nothing else on the document is
touched. -/
def plainClaimIssue (i : Issue) (ngo : String) : Issue :=
  { i with claimedByNGO := ngo, claimStatus := "claimed",
           status := "community-in-progress" }

/-- Effect on the issue document of `POST /api/ngo/issues/:id/claim`: the
claim fields are set and a statusHistory entry is pushed carrying the
just-assigned status (`issue.status`, i.e. `community-in-progress`) and the
NGO's name. -/
def ngoClaimIssue (i : Issue) (ngoName : String) (now : Int) : Issue :=
  { i with claimedByNGO := ngoName, claimStatus := "claimed",
           status := "community-in-progress",
           statusHistory :=
             i.statusHistory ++ [⟨"community-in-progress", now, ngoName⟩] }

/-- Effect on the issue document of `PUT /api/issues/:id/status`:
`findByIdAndUpdate(id, { status })` followed by a push of
`{ status, date, by: 'admin' }` and a save. -/
def statusPutIssue (i : Issue) (status : String) (now : Int) : Issue :=
  { i with status := status,
           statusHistory := i.statusHistory ++ [⟨status, now, "admin"⟩] }

/-- Effect on the issue document of `POST /api/issues/:id/add-update`:
always pushes an update entry `{ text: text || '', date, by: by || 'system' }`;
when `status` is truthy it additionally pushes a statusHistory entry and
assigns `issue.status = status`. -/
def addUpdateIssue (i : Issue) (text status byActor : Option String)
    (now : Int) : Issue :=
  let actor := strOr byActor "system"
  let i1 := { i with updates := i.updates ++ [⟨text.getD "", now, actor⟩] }
  match status with
  | some s =>
      if s = "" then i1
      else { i1 with statusHistory := i1.statusHistory ++ [⟨s, now, actor⟩],
                     status := s }
  | none => i1

/-- The actor string used by `POST /api/ngo/issues/:id/update`:
`ngo ? ngo.name : (ngoEmail || 'ngo')`. -/
def ngoUpdActor (ngo : Option NGO) (ngoEmail : Option String) : String :=
  match ngo with
  | some g => g.name
  | none => strOr ngoEmail "ngo"

/-- Effect on the issue document of `POST /api/ngo/issues/:id/update`:
pushes an update entry; when `status` is truthy additionally pushes a
statusHistory entry and assigns `issue.status = status` (the NGO-counter
side effect lives at the store level, see `ngoUpdateEndpoint`). -/
def ngoUpdateIssue (i : Issue) (actor : String) (text status : Option String)
    (now : Int) : Issue :=
  let i1 := { i with updates := i.updates ++ [⟨text.getD "", now, actor⟩] }
  match status with
  | some s =>
      if s = "" then i1
      else { i1 with statusHistory := i1.statusHistory ++ [⟨s, now, actor⟩],
                     status := s }
  | none => i1

/-- `status === 'solved' || status === 'resolved'` under the handler's
truthiness guard `if (status)`. -/
def isSolvedStatus (status : Option String) : Bool :=
  match status with
  | some s => s = "solved" || s = "resolved"
  | none => false

/-! ### Store-level handlers -/

/-- `POST /api/issues/:id/claim` (the plain claim endpoint).  Returns the
response, the updated store, and the messages handed to `sendEmail`. -/
def claimEndpoint (st : Store) (id : String) (ngo : String) :
    ApiResult Issue × Store × List EmailMsg :=
  match findIssue st id with
  | none => (.notFound "Issue not found", st, [])
  | some i =>
      let i' := plainClaimIssue i ngo
      let msgs := reporterEmails st.profiles i'
        ("Your report \"" ++ i'.title ++ "\" was adopted by " ++ ngo)
      (.ok i', { st with issues := setIssue st.issues id i' }, msgs)

/-- `POST /api/ngo/issues/:id/claim` (the NGO-scoped claim endpoint): 404 if
the NGO or the issue is missing; otherwise updates the issue via
`ngoClaimIssue` and increments the NGO's `issuesClaimed` counter.  This
handler sends no notification. -/
def ngoClaimEndpoint (st : Store) (id : String) (ngoEmail : String)
    (now : Int) : ApiResult Issue × Store :=
  match findNgo st.ngos ngoEmail with
  | none => (.notFound "NGO not found", st)
  | some g =>
      match findIssue st id with
      | none => (.notFound "Issue not found", st)
      | some i =>
          let i' := ngoClaimIssue i g.name now
          let ngos' := saveNgo st.ngos ngoEmail (fun n =>
            { n with impactStats :=
                { n.impactStats with
                    issuesClaimed := n.impactStats.issuesClaimed + 1 } })
          (.ok i', { st with issues := setIssue st.issues id i',
                             ngos := ngos' })

/-- `POST /api/ngo/issues/:id/update`: a missing NGO record is not an error;
404 only when the issue is missing.  When the supplied status is `solved` or
`resolved` and the NGO record exists, its `issuesSolved` counter is
incremented.  Notifies the reporter through the standard gate. -/
def ngoUpdateEndpoint (st : Store) (id : String)
    (ngoEmail text status : Option String) (now : Int) :
    ApiResult Issue × Store × List EmailMsg :=
  let ngo := ngoLookup st.ngos ngoEmail
  match findIssue st id with
  | none => (.notFound "Issue not found", st, [])
  | some i =>
      let actor := ngoUpdActor ngo ngoEmail
      let i' := ngoUpdateIssue i actor text status now
      let ngos' :=
        if isSolvedStatus status then
          match ngo with
          | some g => saveNgo st.ngos g.email (fun n =>
              { n with impactStats :=
                  { n.impactStats with
                      issuesSolved := n.impactStats.issuesSolved + 1 } })
          | none => st.ngos
        else st.ngos
      let msgs := reporterEmails st.profiles i'
        ("Update on your report: " ++ i'.title)
      (.ok i', { st with issues := setIssue st.issues id i', ngos := ngos' },
       msgs)

/-- `PUT /api/issues/:id/status`: sets the status, appends a history entry
attributed to `admin`, and notifies the reporter through the standard
gate. -/
def statusPutEndpoint (st : Store) (id : String) (status : String)
    (now : Int) : ApiResult Issue × Store × List EmailMsg :=
  match findIssue st id with
  | none => (.notFound "Issue not found", st, [])
  | some i =>
      let i' := statusPutIssue i status now
      let msgs := reporterEmails st.profiles i'
        ("Status update for your report: " ++ i'.title)
      (.ok i', { st with issues := setIssue st.issues id i' }, msgs)

/-- `POST /api/issues/:id/add-update`: appends an update entry, optionally a
status entry, and notifies the reporter through the standard gate. -/
def addUpdateEndpoint (st : Store) (id : String)
    (text status byActor : Option String) (now : Int) :
    ApiResult Issue × Store × List EmailMsg :=
  match findIssue st id with
  | none => (.notFound "Issue not found", st, [])
  | some i =>
      let i' := addUpdateIssue i text status byActor now
      let msgs := reporterEmails st.profiles i'
        ("Update on your report: " ++ i'.title)
      (.ok i', { st with issues := setIssue st.issues id i' }, msgs)

/-! ### Issue creation -/

/-- The `status` enumeration of IssueSchema (mongoose validates it on
`Issue.create`). -/
def issueStatusEnum : List String :=
  ["pending", "in-progress", "resolved", "rejected", "claimed",
   "community-in-progress", "solved"]

/-- The `priority` enumeration of IssueSchema. -/
def priorityEnum : List String := ["low", "medium", "high"]

/-- Request body of `POST /api/issues` (fields the handler reads). -/
structure CreateBody where
  title : String
  description : String
  category : Option String
  status : Option String
  reportedBy : Option String
  reporterEmail : Option String
  reportedAt : Option Int
  verificationCount : Option Nat
  priority : Option String
  statusHistory : Option (List StatusEntry)
  updates : Option (List UpdateEntry)
deriving Repr, DecidableEq

/-- `body.reporterEmail || undefined`: an empty string is falsy and becomes
`undefined`. -/
def emailOrUndefined (o : Option String) : Option String :=
  match o with
  | some e => if e = "" then none else some e
  | none => none

/-- `POST /api/issues`: builds the create payload with JS-falsy defaulting
(`body.status || 'pending'`, `body.reporterEmail || undefined`, ...) and
creates the document; mongoose enum validation rejects out-of-enum status or
priority values (`none` models the resulting 500).  Fields absent from the
payload take their schema defaults (`claimedByNGO: ''`,
`claimStatus: 'none'`, `escalated: false`). -/
def createIssue (b : CreateBody) (now : Int) : Option Issue :=
  let status := strOr b.status "pending"
  let priority := strOr b.priority "medium"
  if status ∈ issueStatusEnum ∧ priority ∈ priorityEnum then
    some { title := b.title
           description := b.description
           category := strOr b.category "other"
           status := status
           reportedBy := strOr b.reportedBy "anonymous"
           reporterEmail := emailOrUndefined b.reporterEmail
           reportedAt := intOr b.reportedAt now
           verificationCount := b.verificationCount.getD 0
           priority := priority
           statusHistory := b.statusHistory.getD []
           updates := b.updates.getD []
           claimedByNGO := ""
           claimStatus := "none"
           escalated := false }
  else none

/-! ### Generic document update -/

/-- Request body of `PUT /api/issues/:id`, restricted to the claim-relevant
fields (`findByIdAndUpdate(id, update)` sets exactly the fields present in
the body; absent fields are untouched). -/
structure PutBody where
  status : Option String
  claimedByNGO : Option String
  claimStatus : Option String
  reporterEmail : Option String
deriving Repr, DecidableEq

/-- Field-wise effect of `findByIdAndUpdate(id, update)` for `PutBody`. -/
def applyPutBody (i : Issue) (b : PutBody) : Issue :=
  { i with status := b.status.getD i.status
           claimedByNGO := b.claimedByNGO.getD i.claimedByNGO
           claimStatus := b.claimStatus.getD i.claimStatus
           reporterEmail :=
             match b.reporterEmail with
             | some e => some e
             | none => i.reporterEmail }

/-- `PUT /api/issues/:id`. -/
def putEndpoint (st : Store) (id : String) (b : PutBody) :
    ApiResult Issue × Store :=
  match findIssue st id with
  | none => (.notFound "Issue not found", st)
  | some i =>
      let i' := applyPutBody i b
      (.ok i', { st with issues := setIssue st.issues id i' })

/-! ### Escalation and routing -/

/-- Body of the `GET /api/issues/escalated` handler: all issues with
`status: 'pending'` and `reportedAt <= Date.now() - 10 days`. -/
def escalatedHandler (st : Store) (now : Int) : List Issue :=
  let tenDaysAgo := now - 10 * 24 * 60 * 60 * 1000
  (st.issues.map Prod.snd).filter
    (fun i => i.status = "pending" && decide (i.reportedAt ≤ tenDaysAgo))

/-- A segment of an Express route pattern: a literal or a `:param`. -/
inductive Seg where
  | lit : String → Seg
  | param : String → Seg
deriving Repr, DecidableEq

/-- Express path matching: literals must agree, params match any single
segment. -/
def matchSegs : List Seg → List String → Bool
  | [], [] => true
  | .lit s :: ps, t :: ts => s = t && matchSegs ps ts
  | .param _ :: ps, _ :: ts => matchSegs ps ts
  | _, _ => false

/-- The GET routes of src/server/index.js in registration order (the order
`app.get` is called), identified by handler names used in this file. -/
def getRoutes : List (String × List Seg) :=
  [ ("health", [.lit "health"]),
    ("getIssues", [.lit "api", .lit "issues"]),
    ("getIssueById", [.lit "api", .lit "issues", .param "id"]),
    ("getIssuesEscalated", [.lit "api", .lit "issues", .lit "escalated"]),
    ("getEvents", [.lit "api", .lit "events"]),
    ("getNgoByEmail", [.lit "api", .lit "ngos", .param "email"]),
    ("getNgoStats", [.lit "api", .lit "ngos", .param "email", .lit "stats"]),
    ("getStats", [.lit "api", .lit "stats"]),
    ("getProfile", [.lit "api", .lit "profile"]) ]

/-- Express dispatch: the first registered route whose pattern matches the
path wins. -/
def dispatchGet (path : List String) : Option String :=
  (getRoutes.find? (fun r => matchSegs r.snd path)).map Prod.fst

/-- Mongoose accepts a string as an ObjectId when it is 24 hex characters
(or a raw 12-character string). -/
def isHexDigit (c : Char) : Bool :=
  c.isDigit || ('a' ≤ c && c ≤ 'f') || ('A' ≤ c && c ≤ 'F')

/-- `mongoose.isValidObjectId` for plain strings. -/
def isValidObjectId (s : String) : Bool :=
  (s.length = 24 && s.data.all isHexDigit) || s.length = 12

/-- `GET /api/issues/:id`: `Issue.findById(id)` casts `id` to an ObjectId;
an invalid id throws a CastError, caught by the handler's try/catch and
turned into a 500. -/
def getIssueById (st : Store) (id : String) : ApiResult Issue :=
  if isValidObjectId id then
    match findIssue st id with
    | some i => .ok i
    | none => .notFound "Issue not found"
  else .serverError "Failed to fetch issue"

/-! ### Concrete sample data (used by witnesses and counterexamples) -/

/-- A freshly reported issue, as the create endpoint would store it. -/
def sampleIssue : Issue :=
  { title := "Pothole on Main St"
    description := "Deep pothole near the crossing"
    category := "pothole"
    status := "pending"
    reportedBy := "Asha"
    reporterEmail := some "a@x.com"
    reportedAt := 1000
    verificationCount := 0
    priority := "medium"
    statusHistory := []
    updates := []
    claimedByNGO := ""
    claimStatus := "none"
    escalated := false }

/-- A registered NGO with zeroed impact counters. -/
def sampleNgo : NGO :=
  { name := "GreenCity", email := "g@x.org", profile := ""
    impactStats :=
      { issuesClaimed := 0, issuesSolved := 0
        volunteerHours := 0, resourcesRaised := 0 } }

/-- A store holding the sample issue and the sample NGO. -/
def sampleStore : Store :=
  { issues := [("a1", sampleIssue)], ngos := [sampleNgo], profiles := [] }

/-! ### Helper lemmas about the store primitives -/

theorem lookupIssue_setIssue {l : List (String × Issue)} {id : String}
    {i : Issue} (i' : Issue) (h : lookupIssue l id = some i) :
    lookupIssue (setIssue l id i') id = some i' := by
  induction l with
  | nil => simp [lookupIssue] at h
  | cons kv rest ih =>
      obtain ⟨k, v⟩ := kv
      by_cases hk : k = id
      · simp [setIssue, lookupIssue, hk]
      · simp only [setIssue, lookupIssue, hk, if_false, if_neg] at h ⊢
        exact ih h

theorem findNgo_saveNgo {l : List NGO} {e : String} {g : NGO} (f : NGO → NGO)
    (hf : ∀ n, (f n).email = n.email) (h : findNgo l e = some g) :
    findNgo (saveNgo l e f) e = some (f g) := by
  induction l with
  | nil => simp [findNgo] at h
  | cons g0 gs ih =>
      by_cases hg : g0.email = e
      · have h' : g0 = g := by simpa [findNgo, hg] using h
        subst h'
        simp [saveNgo, findNgo, hf, hg]
      · simp only [findNgo, saveNgo, hg, if_neg, if_false] at h ⊢
        exact ih h

/-! ### Claims -/

/-- Claim C1: for every existing issue, a successful claim through either
claim endpoint leaves the issue in a state where `claimedByNGO` is the
claiming NGO's name, `claimStatus` is `claimed` and `status` is
`community-in-progress`, all observable together in the returned record
(which is also the stored record). -/
theorem claim_sets_claim_fields (st : Store) (id ngoName ngoEmail : String)
    (i : Issue) (g : NGO) (now : Int)
    (hIssue : findIssue st id = some i)
    (hNgo : findNgo st.ngos ngoEmail = some g) :
    (∃ i', (claimEndpoint st id ngoName).1 = .ok i'
        ∧ findIssue (claimEndpoint st id ngoName).2.1 id = some i'
        ∧ i'.claimedByNGO = ngoName ∧ i'.claimStatus = "claimed"
        ∧ i'.status = "community-in-progress") ∧
    (∃ i', (ngoClaimEndpoint st id ngoEmail now).1 = .ok i'
        ∧ findIssue (ngoClaimEndpoint st id ngoEmail now).2 id = some i'
        ∧ i'.claimedByNGO = g.name ∧ i'.claimStatus = "claimed"
        ∧ i'.status = "community-in-progress") := by
  have hI : lookupIssue st.issues id = some i := hIssue
  constructor
  · refine ⟨plainClaimIssue i ngoName, ?_, ?_, rfl, rfl, rfl⟩
    · simp [claimEndpoint, hIssue]
    · simp only [claimEndpoint, hIssue]
      exact lookupIssue_setIssue _ hI
  · refine ⟨ngoClaimIssue i g.name now, ?_, ?_, rfl, rfl, rfl⟩
    · simp [ngoClaimEndpoint, hNgo, hIssue]
    · simp only [ngoClaimEndpoint, hNgo, hIssue]
      exact lookupIssue_setIssue _ hI

/-- Witness for C1 at the sample store. -/
theorem claim_sets_claim_fields_witness :
    (∃ i', (claimEndpoint sampleStore "a1" "GreenCity").1 = .ok i'
        ∧ findIssue (claimEndpoint sampleStore "a1" "GreenCity").2.1 "a1"
            = some i'
        ∧ i'.claimedByNGO = "GreenCity" ∧ i'.claimStatus = "claimed"
        ∧ i'.status = "community-in-progress") ∧
    (∃ i', (ngoClaimEndpoint sampleStore "a1" "g@x.org" 5).1 = .ok i'
        ∧ findIssue (ngoClaimEndpoint sampleStore "a1" "g@x.org" 5).2 "a1"
            = some i'
        ∧ i'.claimedByNGO = sampleNgo.name ∧ i'.claimStatus = "claimed"
        ∧ i'.status = "community-in-progress") :=
  claim_sets_claim_fields sampleStore "a1" "GreenCity" "g@x.org" sampleIssue
    sampleNgo 5 (by decide) (by decide)

/-- Counterexample to claim C3 as stated: the plain claim endpoint
(`POST /api/issues/:id/claim`) succeeds on the sample issue yet appends
nothing to `statusHistory` — it stays empty, so no entry attributed to the
claiming NGO exists. -/
theorem plain_claim_no_history_cex :
    (claimEndpoint sampleStore "a1" "GreenCity").1
        = .ok (plainClaimIssue sampleIssue "GreenCity")
    ∧ sampleIssue.statusHistory = []
    ∧ (plainClaimIssue sampleIssue "GreenCity").statusHistory = [] := by
  decide

/-- Claim C3 (amended): only the NGO-scoped claim endpoint appends a
statusHistory entry attributed to the claiming NGO; the plain claim
endpoint leaves `statusHistory` unchanged. -/
theorem ngo_claim_appends_history (st : Store) (id ngoEmail : String)
    (i : Issue) (g : NGO) (now : Int)
    (hIssue : findIssue st id = some i)
    (hNgo : findNgo st.ngos ngoEmail = some g) :
    (∃ i', (ngoClaimEndpoint st id ngoEmail now).1 = .ok i'
        ∧ i'.statusHistory
            = i.statusHistory ++ [⟨"community-in-progress", now, g.name⟩]) ∧
    ∀ ngoName, ∃ i', (claimEndpoint st id ngoName).1 = .ok i'
        ∧ i'.statusHistory = i.statusHistory := by
  constructor
  · exact ⟨ngoClaimIssue i g.name now,
      by simp [ngoClaimEndpoint, hNgo, hIssue], rfl⟩
  · intro ngoName
    exact ⟨plainClaimIssue i ngoName, by simp [claimEndpoint, hIssue], rfl⟩

/-- Witness for the amended C3 at the sample store. -/
theorem ngo_claim_appends_history_witness :
    (∃ i', (ngoClaimEndpoint sampleStore "a1" "g@x.org" 5).1 = .ok i'
        ∧ i'.statusHistory
            = sampleIssue.statusHistory
                ++ [⟨"community-in-progress", 5, sampleNgo.name⟩]) ∧
    ∀ ngoName, ∃ i', (claimEndpoint sampleStore "a1" ngoName).1 = .ok i'
        ∧ i'.statusHistory = sampleIssue.statusHistory :=
  ngo_claim_appends_history sampleStore "a1" "g@x.org" sampleIssue sampleNgo 5
    (by decide) (by decide)

/-- Claim C4: every status-change call (`PUT /api/issues/:id/status`, and
`POST /api/issues/:id/add-update` / `POST /api/ngo/issues/:id/update` when
a status is supplied) grows `statusHistory` by exactly one entry whose
`status` field is the requested status. -/
theorem status_change_appends_history (st : Store) (id : String) (i : Issue)
    (s : String) (t b ngoEmail : Option String) (now : Int)
    (hIssue : findIssue st id = some i) (hs : s ≠ "") :
    (∃ i', (statusPutEndpoint st id s now).1 = .ok i'
        ∧ i'.statusHistory.length = i.statusHistory.length + 1
        ∧ i'.statusHistory.getLast? = some ⟨s, now, "admin"⟩) ∧
    (∃ i', (addUpdateEndpoint st id t (some s) b now).1 = .ok i'
        ∧ i'.statusHistory.length = i.statusHistory.length + 1
        ∧ i'.statusHistory.getLast?.map StatusEntry.status = some s) ∧
    (∃ i', (ngoUpdateEndpoint st id ngoEmail t (some s) now).1 = .ok i'
        ∧ i'.statusHistory.length = i.statusHistory.length + 1
        ∧ i'.statusHistory.getLast?.map StatusEntry.status = some s) := by
  refine ⟨⟨statusPutIssue i s now, ?_, ?_, ?_⟩,
          ⟨addUpdateIssue i t (some s) b now, ?_, ?_, ?_⟩,
          ⟨ngoUpdateIssue i (ngoUpdActor (ngoLookup st.ngos ngoEmail) ngoEmail)
              t (some s) now, ?_, ?_, ?_⟩⟩
  · simp [statusPutEndpoint, hIssue]
  · simp [statusPutIssue]
  · simp [statusPutIssue, List.getLast?_concat]
  · simp [addUpdateEndpoint, hIssue]
  · simp [addUpdateIssue, hs]
  · simp [addUpdateIssue, hs, List.getLast?_concat]
  · simp [ngoUpdateEndpoint, hIssue]
  · simp [ngoUpdateIssue, hs]
  · simp [ngoUpdateIssue, hs, List.getLast?_concat]

/-- Witness for C4 at the sample store with requested status
`in-progress`. -/
theorem status_change_appends_history_witness :
    (∃ i', (statusPutEndpoint sampleStore "a1" "in-progress" 7).1 = .ok i'
        ∧ i'.statusHistory.length = sampleIssue.statusHistory.length + 1
        ∧ i'.statusHistory.getLast? = some ⟨"in-progress", 7, "admin"⟩) ∧
    (∃ i', (addUpdateEndpoint sampleStore "a1" (some "work started")
              (some "in-progress") (some "admin") 7).1 = .ok i'
        ∧ i'.statusHistory.length = sampleIssue.statusHistory.length + 1
        ∧ i'.statusHistory.getLast?.map StatusEntry.status
            = some "in-progress") ∧
    (∃ i', (ngoUpdateEndpoint sampleStore "a1" (some "g@x.org")
              (some "work started") (some "in-progress") 7).1 = .ok i'
        ∧ i'.statusHistory.length = sampleIssue.statusHistory.length + 1
        ∧ i'.statusHistory.getLast?.map StatusEntry.status
            = some "in-progress") :=
  status_change_appends_history sampleStore "a1" sampleIssue "in-progress"
    (some "work started") (some "admin") (some "g@x.org") 7
    (by decide) (by decide)

/-- Claim C6: a successful NGO-scoped claim increments that NGO's
`issuesClaimed` counter by exactly 1 (its other counters and identity
unchanged), whereas the plain claim endpoint leaves the NGO collection
untouched. -/
theorem ngo_claim_increments_claimed (st : Store)
    (id ngoEmail ngoName : String) (i : Issue) (g : NGO) (now : Int)
    (hIssue : findIssue st id = some i)
    (hNgo : findNgo st.ngos ngoEmail = some g) :
    (∃ g', findNgo (ngoClaimEndpoint st id ngoEmail now).2.ngos ngoEmail
            = some g'
        ∧ g'.impactStats.issuesClaimed = g.impactStats.issuesClaimed + 1
        ∧ g'.impactStats.issuesSolved = g.impactStats.issuesSolved
        ∧ g'.name = g.name ∧ g'.email = g.email) ∧
    (claimEndpoint st id ngoName).2.1.ngos = st.ngos := by
  constructor
  · refine ⟨{ g with impactStats :=
        { g.impactStats with
            issuesClaimed := g.impactStats.issuesClaimed + 1 } },
      ?_, rfl, rfl, rfl, rfl⟩
    simp only [ngoClaimEndpoint, hNgo, hIssue]
    exact findNgo_saveNgo _ (fun n => rfl) hNgo
  · simp [claimEndpoint, hIssue]

/-- Witness for C6 at the sample store. -/
theorem ngo_claim_increments_claimed_witness :
    (∃ g', findNgo (ngoClaimEndpoint sampleStore "a1" "g@x.org" 5).2.ngos
            "g@x.org" = some g'
        ∧ g'.impactStats.issuesClaimed
            = sampleNgo.impactStats.issuesClaimed + 1
        ∧ g'.impactStats.issuesSolved = sampleNgo.impactStats.issuesSolved
        ∧ g'.name = sampleNgo.name ∧ g'.email = sampleNgo.email) ∧
    (claimEndpoint sampleStore "a1" "GreenCity").2.1.ngos = sampleStore.ngos :=
  ngo_claim_increments_claimed sampleStore "a1" "g@x.org" "GreenCity"
    sampleIssue sampleNgo 5 (by decide) (by decide)

/-- An issue already claimed by the sample NGO and already in `solved`
status. -/
def solvedIssue : Issue :=
  { sampleIssue with status := "solved", claimedByNGO := "GreenCity"
                     claimStatus := "claimed", reporterEmail := none }

/-- A store holding the already-solved claimed issue and the sample NGO. -/
def solvedStore : Store :=
  { issues := [("a2", solvedIssue)], ngos := [sampleNgo], profiles := [] }

/-- `findNgo` only returns a record whose email is the searched one. -/
theorem findNgo_email {l : List NGO} {e : String} {g : NGO}
    (h : findNgo l e = some g) : g.email = e := by
  induction l with
  | nil => simp [findNgo] at h
  | cons g0 gs ih =>
      by_cases hg : g0.email = e
      · have h' : g0 = g := by simpa [findNgo, hg] using h
        subst h'
        exact hg
      · simp only [findNgo, hg, if_neg, if_false] at h
        exact ih h

/-- Variant of `findNgo_saveNgo` where the save key is spelled as the found
record's own email (as `ngo.save()` does). -/
theorem findNgo_saveNgo' {l : List NGO} {e : String} {g : NGO} (f : NGO → NGO)
    (hf : ∀ n, (f n).email = n.email) (h : findNgo l e = some g) :
    findNgo (saveNgo l g.email f) e = some (f g) := by
  rw [findNgo_email h]
  exact findNgo_saveNgo f hf h

/-- Counterexample to claim C5 as stated: calling the NGO update endpoint
with status `solved` on a claimed issue that is already `solved` performs no
transition (the status is unchanged), yet the NGO's `issuesSolved` counter
is still incremented. -/
theorem solved_counter_without_transition_cex :
    solvedIssue.status = "solved" ∧ solvedIssue.claimStatus = "claimed"
    ∧ (ngoUpdateEndpoint solvedStore "a2" (some "g@x.org") none
          (some "solved") 9).1
        = .ok (ngoUpdateIssue solvedIssue "GreenCity" none (some "solved") 9)
    ∧ (ngoUpdateIssue solvedIssue "GreenCity" none (some "solved") 9).status
        = solvedIssue.status
    ∧ findNgo (ngoUpdateEndpoint solvedStore "a2" (some "g@x.org") none
          (some "solved") 9).2.1.ngos "g@x.org"
        = some { sampleNgo with impactStats :=
            { sampleNgo.impactStats with issuesSolved := 1 } } := by
  decide

/-- Claim C5 (amended): the NGO update operation increments the NGO's
`issuesSolved` counter by exactly 1 on every call that supplies status
`solved` or `resolved` (when the ngoEmail resolves to an NGO record),
regardless of the issue's previous status — so repeated solved/resolved
calls increment repeatedly; calls with any other (or no) status leave the
NGO collection unchanged. -/
theorem ngo_update_solved_counter (st : Store) (id : String) (i : Issue)
    (e : String) (g : NGO) (t status : Option String) (now : Int)
    (hIssue : findIssue st id = some i)
    (hNgo : findNgo st.ngos e = some g) :
    (isSolvedStatus status = true →
      ∃ g', findNgo (ngoUpdateEndpoint st id (some e) t status now).2.1.ngos e
              = some g'
        ∧ g'.impactStats.issuesSolved = g.impactStats.issuesSolved + 1
        ∧ g'.impactStats.issuesClaimed = g.impactStats.issuesClaimed) ∧
    (isSolvedStatus status = false →
      (ngoUpdateEndpoint st id (some e) t status now).2.1.ngos = st.ngos) := by
  constructor
  · intro hsolved
    refine ⟨{ g with impactStats :=
        { g.impactStats with
            issuesSolved := g.impactStats.issuesSolved + 1 } }, ?_, rfl, rfl⟩
    simp only [ngoUpdateEndpoint, ngoLookup, hNgo, hIssue, hsolved, if_true]
    exact findNgo_saveNgo' _ (fun n => rfl) hNgo
  · intro hother
    simp [ngoUpdateEndpoint, ngoLookup, hNgo, hIssue, hother]

/-- An issue claimed by the sample NGO and still in progress. -/
def claimedIssue : Issue :=
  { sampleIssue with status := "community-in-progress"
                     claimedByNGO := "GreenCity", claimStatus := "claimed"
                     reporterEmail := none }

/-- A store holding the claimed in-progress issue and the sample NGO. -/
def claimedStore : Store :=
  { issues := [("a3", claimedIssue)], ngos := [sampleNgo], profiles := [] }

/-- Witness for the amended C5: transitioning the claimed sample issue to
`solved` bumps `issuesSolved` from 0 to 1. -/
theorem ngo_update_solved_counter_witness :
    (isSolvedStatus (some "solved") = true →
      ∃ g', findNgo (ngoUpdateEndpoint claimedStore "a3" (some "g@x.org")
              (some "fixed") (some "solved") 9).2.1.ngos "g@x.org" = some g'
        ∧ g'.impactStats.issuesSolved
            = sampleNgo.impactStats.issuesSolved + 1
        ∧ g'.impactStats.issuesClaimed
            = sampleNgo.impactStats.issuesClaimed) ∧
    (isSolvedStatus (some "solved") = false →
      (ngoUpdateEndpoint claimedStore "a3" (some "g@x.org") (some "fixed")
          (some "solved") 9).2.1.ngos = claimedStore.ngos) :=
  ngo_update_solved_counter claimedStore "a3" claimedIssue "g@x.org"
    sampleNgo (some "fixed") (some "solved") 9 (by decide) (by decide)

/-- A create request body that supplies its own status and statusHistory. -/
def seededBody : CreateBody :=
  { title := "Leaky hydrant", description := "Water pooling"
    category := none, status := some "resolved", reportedBy := none
    reporterEmail := none, reportedAt := some 50, verificationCount := none
    priority := none, statusHistory := some [⟨"resolved", 50, "admin"⟩]
    updates := none }

/-- Counterexample to claim C8 as stated: the create endpoint accepts a
body carrying `status: 'resolved'` and a pre-filled statusHistory, and the
created issue keeps them — it is neither `pending` nor history-free. -/
theorem create_passthrough_cex :
    (createIssue seededBody 100).map Issue.status = some "resolved"
    ∧ (createIssue seededBody 100).map Issue.status ≠ some "pending"
    ∧ (createIssue seededBody 100).map Issue.statusHistory
        = some [⟨"resolved", 50, "admin"⟩] := by
  decide

/-- Claim C8 (amended): when the create request body supplies no status (or
an empty string) and no statusHistory/updates (or empty arrays), the
created issue has status `pending` and empty `statusHistory` and
`updates`. -/
theorem create_defaults (b : CreateBody) (now : Int) (i : Issue)
    (hs : b.status = none ∨ b.status = some "")
    (hh : b.statusHistory = none ∨ b.statusHistory = some [])
    (hu : b.updates = none ∨ b.updates = some [])
    (hc : createIssue b now = some i) :
    i.status = "pending" ∧ i.statusHistory = [] ∧ i.updates = [] := by
  simp only [createIssue] at hc
  split at hc
  · injection hc with h
    subst h
    refine ⟨?_, ?_, ?_⟩
    · rcases hs with hs | hs <;> simp [strOr, hs]
    · rcases hh with hh | hh <;> simp [hh]
    · rcases hu with hu | hu <;> simp [hu]
  · cases hc

/-- A minimal create request body (only the required fields). -/
def minimalBody : CreateBody :=
  { title := "Dark alley", description := "Streetlight out"
    category := none, status := none, reportedBy := none
    reporterEmail := none, reportedAt := none, verificationCount := none
    priority := none, statusHistory := none, updates := none }

/-- The issue the create endpoint stores for `minimalBody` at time 100. -/
def minimalCreated : Issue :=
  { title := "Dark alley", description := "Streetlight out"
    category := "other", status := "pending", reportedBy := "anonymous"
    reporterEmail := none, reportedAt := 100, verificationCount := 0
    priority := "medium", statusHistory := [], updates := []
    claimedByNGO := "", claimStatus := "none", escalated := false }

/-- Witness for the amended C8 at the minimal body. -/
theorem create_defaults_witness :
    minimalCreated.status = "pending" ∧ minimalCreated.statusHistory = []
    ∧ minimalCreated.updates = [] :=
  create_defaults minimalBody 100 minimalCreated (Or.inl rfl) (Or.inl rfl)
    (Or.inl rfl) (by decide)

/-- Counterexample to claim C10 as stated: with the `ngoEmail` field absent
from the body, `NGO.findOne({email: undefined})` runs as `findOne({})` and
returns the first NGO record.  Over the sample store the update entry is
attributed to that NGO's name (`GreenCity`, not `ngo`), and with status
`solved` that NGO's `issuesSolved` counter is incremented — contradicting
both the `'ngo'`-attribution and the no-counter-change clauses. -/
theorem ngo_update_absent_email_cex :
    ngoLookup sampleStore.ngos none = some sampleNgo
    ∧ (ngoUpdateEndpoint sampleStore "a1" none (some "done")
          (some "solved") 11).1
        = .ok (ngoUpdateIssue sampleIssue "GreenCity" (some "done")
            (some "solved") 11)
    ∧ (ngoUpdateIssue sampleIssue "GreenCity" (some "done")
          (some "solved") 11).updates.getLast?
        = some ⟨"done", 11, "GreenCity"⟩
    ∧ findNgo (ngoUpdateEndpoint sampleStore "a1" none (some "done")
          (some "solved") 11).2.1.ngos "g@x.org"
        = some { sampleNgo with impactStats :=
            { sampleNgo.impactStats with issuesSolved := 1 } } := by
  decide

/-- Claim C10 (amended): the NGO update operation with a supplied ngoEmail
matching no NGO record still succeeds: the update entry is appended
attributed to the raw ngoEmail string, any supplied status is applied and
recorded in statusHistory, and the NGO collection — hence every
`issuesSolved` counter — is unchanged even for status `solved` or
`resolved`.  When the ngoEmail field is absent the lookup runs as
`findOne({})` and credits the first NGO record; the `ngo` fallback
attribution therefore only occurs when no NGO record is found at all, e.g.
over an empty NGO collection (where the collection again stays
unchanged). -/
theorem ngo_update_unknown_ngo (st : Store) (id : String) (i : Issue)
    (e s : String) (t : Option String) (now : Int)
    (hIssue : findIssue st id = some i)
    (hNgo : findNgo st.ngos e = none) (he : e ≠ "") (hs : s ≠ "") :
    (∃ i', (ngoUpdateEndpoint st id (some e) t (some s) now).1 = .ok i'
        ∧ i'.updates.getLast? = some ⟨t.getD "", now, e⟩
        ∧ i'.status = s
        ∧ i'.statusHistory.getLast? = some ⟨s, now, e⟩)
    ∧ (ngoUpdateEndpoint st id (some e) t (some s) now).2.1.ngos = st.ngos
    ∧ (st.ngos = [] →
        ∃ i', (ngoUpdateEndpoint st id none t (some s) now).1 = .ok i'
          ∧ i'.updates.getLast? = some ⟨t.getD "", now, "ngo"⟩
          ∧ (ngoUpdateEndpoint st id none t (some s) now).2.1.ngos = []) := by
  refine ⟨⟨ngoUpdateIssue i e t (some s) now, ?_, ?_, ?_, ?_⟩, ?_, ?_⟩
  · simp [ngoUpdateEndpoint, ngoLookup, hNgo, hIssue, ngoUpdActor, strOr, he]
  · simp [ngoUpdateIssue, hs, List.getLast?_concat]
  · simp [ngoUpdateIssue, hs]
  · simp [ngoUpdateIssue, hs, List.getLast?_concat]
  · simp [ngoUpdateEndpoint, ngoLookup, hNgo, hIssue]
  · intro hempty
    refine ⟨ngoUpdateIssue i "ngo" t (some s) now, ?_, ?_, ?_⟩
    · simp [ngoUpdateEndpoint, ngoLookup, hempty, hIssue, ngoUpdActor, strOr]
    · simp [ngoUpdateIssue, hs, List.getLast?_concat]
    · simp [ngoUpdateEndpoint, ngoLookup, hempty, hIssue]

/-- A store with no NGO records at all. -/
def noNgoStore : Store :=
  { issues := [("a1", sampleIssue)], ngos := [], profiles := [] }

/-- Witness for the amended C10: an unknown ngoEmail in a store without
NGOs, with status `solved`. -/
theorem ngo_update_unknown_ngo_witness :
    (∃ i', (ngoUpdateEndpoint noNgoStore "a1" (some "x@y.z") (some "done")
          (some "solved") 11).1 = .ok i'
        ∧ i'.updates.getLast? = some ⟨"done", 11, "x@y.z"⟩
        ∧ i'.status = "solved"
        ∧ i'.statusHistory.getLast? = some ⟨"solved", 11, "x@y.z"⟩)
    ∧ (ngoUpdateEndpoint noNgoStore "a1" (some "x@y.z") (some "done")
          (some "solved") 11).2.1.ngos = noNgoStore.ngos
    ∧ (noNgoStore.ngos = [] →
        ∃ i', (ngoUpdateEndpoint noNgoStore "a1" none (some "done")
            (some "solved") 11).1 = .ok i'
          ∧ i'.updates.getLast? = some ⟨"done", 11, "ngo"⟩
          ∧ (ngoUpdateEndpoint noNgoStore "a1" none (some "done")
              (some "solved") 11).2.1.ngos = []) :=
  ngo_update_unknown_ngo noNgoStore "a1" sampleIssue "x@y.z" "solved"
    (some "done") 11 (by decide) (by decide) (by decide) (by decide)

/-! ### Escalation claim (C2) -/

/-- A reference time for the escalation samples: day 20 in milliseconds. -/
def escNow : Int := 20 * 86400000

/-- Pending issue reported 11 days before `escNow`. -/
def pendingOld : Issue :=
  { sampleIssue with reporterEmail := none, reportedAt := 9 * 86400000 }

/-- Pending issue reported 9 days before `escNow`. -/
def pendingRecent : Issue :=
  { sampleIssue with reporterEmail := none, reportedAt := 11 * 86400000 }

/-- Resolved issue reported 11 days before `escNow`. -/
def resolvedOld : Issue :=
  { sampleIssue with status := "resolved", reporterEmail := none
                     reportedAt := 9 * 86400000 }

/-- A store holding the three escalation samples. -/
def escStore : Store :=
  { issues := [("e1", pendingOld), ("e2", pendingRecent), ("e3", resolvedOld)]
    ngos := [], profiles := [] }

/-- Claim C2, evaluated at its failing input: `GET /api/issues/escalated` is
dispatched to the earlier-registered `/api/issues/:id` route (with
`id = "escalated"`, an invalid ObjectId), so the client receives a 500 and
never the escalated list — even though the shadowed handler body would
return exactly the issues the claim describes (the 11-day-old pending one,
not the 9-day-old pending one, not the 11-day-old resolved one). -/
theorem escalated_endpoint_shadowed :
    dispatchGet ["api", "issues", "escalated"] = some "getIssueById"
    ∧ getIssueById escStore "escalated" = .serverError "Failed to fetch issue"
    ∧ escalatedHandler escStore escNow = [pendingOld]
    ∧ pendingOld.status = "pending" ∧ pendingOld.reportedAt ≤ escNow - 10 * 86400000
    ∧ pendingRecent.status = "pending" ∧ ¬ pendingRecent.reportedAt ≤ escNow - 10 * 86400000
    ∧ resolvedOld.status = "resolved" ∧ resolvedOld.reportedAt ≤ escNow - 10 * 86400000 := by
  decide

/-! ### Notification gating (C9) -/

/-- `reporterEmails` in terms of the gate, for a present non-empty reporter
email. -/
theorem reporterEmails_eq (profiles : List Profile) (i : Issue)
    (subj e : String) (hE : i.reporterEmail = some e) (hne : e ≠ "") :
    reporterEmails profiles i subj
      = if notifyGate profiles e then [⟨e, subj⟩] else [] := by
  simp [reporterEmails, hE, hne]

/-- `addUpdateIssue` never touches the reporter email or the claim
fields. -/
theorem addUpdateIssue_frame (i : Issue) (t s b : Option String) (now : Int) :
    (addUpdateIssue i t s b now).reporterEmail = i.reporterEmail
    ∧ (addUpdateIssue i t s b now).claimedByNGO = i.claimedByNGO
    ∧ (addUpdateIssue i t s b now).claimStatus = i.claimStatus := by
  cases s with
  | none => exact ⟨rfl, rfl, rfl⟩
  | some s' => by_cases hs : s' = "" <;> simp [addUpdateIssue, hs]

/-- `ngoUpdateIssue` never touches the reporter email or the claim
fields. -/
theorem ngoUpdateIssue_frame (i : Issue) (a : String) (t s : Option String)
    (now : Int) :
    (ngoUpdateIssue i a t s now).reporterEmail = i.reporterEmail
    ∧ (ngoUpdateIssue i a t s now).claimedByNGO = i.claimedByNGO
    ∧ (ngoUpdateIssue i a t s now).claimStatus = i.claimStatus := by
  cases s with
  | none => exact ⟨rfl, rfl, rfl⟩
  | some s' => by_cases hs : s' = "" <;> simp [ngoUpdateIssue, hs]

/-- Claim C9: for every status-affecting operation on an issue with a
(non-empty) reporter email — plain claim, status change, add-update, NGO
update — no message is handed to the e-mail dispatcher when the reporter's
profile has `notifyByEmail = false`, and exactly one message addressed to
the reporter is handed to it when the profile is absent or has
`notifyByEmail = true`. -/
theorem notification_gate (st : Store) (id ngoName e : String) (i : Issue)
    (s : String) (t b ngoEmail statusOpt : Option String) (now : Int)
    (hIssue : findIssue st id = some i)
    (hEmail : i.reporterEmail = some e) (hne : e ≠ "") :
    (∀ p, findProfile st.profiles e = some p → p.notifyByEmail = false →
      (claimEndpoint st id ngoName).2.2 = []
      ∧ (statusPutEndpoint st id s now).2.2 = []
      ∧ (addUpdateEndpoint st id t statusOpt b now).2.2 = []
      ∧ (ngoUpdateEndpoint st id ngoEmail t statusOpt now).2.2 = []) ∧
    ((findProfile st.profiles e = none
        ∨ ∃ p, findProfile st.profiles e = some p ∧ p.notifyByEmail = true) →
      (claimEndpoint st id ngoName).2.2.map EmailMsg.dest = [e]
      ∧ (statusPutEndpoint st id s now).2.2.map EmailMsg.dest = [e]
      ∧ (addUpdateEndpoint st id t statusOpt b now).2.2.map EmailMsg.dest
          = [e]
      ∧ (ngoUpdateEndpoint st id ngoEmail t statusOpt now).2.2.map
          EmailMsg.dest = [e]) := by
  have hE2 : (addUpdateIssue i t statusOpt b now).reporterEmail = some e := by
    rw [(addUpdateIssue_frame i t statusOpt b now).1, hEmail]
  have hE3 : (ngoUpdateIssue i (ngoUpdActor (ngoLookup st.ngos ngoEmail)
      ngoEmail) t statusOpt now).reporterEmail = some e := by
    rw [(ngoUpdateIssue_frame i _ t statusOpt now).1, hEmail]
  have m1 : (claimEndpoint st id ngoName).2.2
      = if notifyGate st.profiles e then
          [⟨e, "Your report \"" ++ (plainClaimIssue i ngoName).title
              ++ "\" was adopted by " ++ ngoName⟩]
        else [] := by
    simp only [claimEndpoint, hIssue]
    exact reporterEmails_eq _ _ _ e hEmail hne
  have m2 : (statusPutEndpoint st id s now).2.2
      = if notifyGate st.profiles e then
          [⟨e, "Status update for your report: "
              ++ (statusPutIssue i s now).title⟩]
        else [] := by
    simp only [statusPutEndpoint, hIssue]
    exact reporterEmails_eq _ _ _ e hEmail hne
  have m3 : (addUpdateEndpoint st id t statusOpt b now).2.2
      = if notifyGate st.profiles e then
          [⟨e, "Update on your report: "
              ++ (addUpdateIssue i t statusOpt b now).title⟩]
        else [] := by
    simp only [addUpdateEndpoint, hIssue]
    exact reporterEmails_eq _ _ _ e hE2 hne
  have m4 : (ngoUpdateEndpoint st id ngoEmail t statusOpt now).2.2
      = if notifyGate st.profiles e then
          [⟨e, "Update on your report: "
              ++ (ngoUpdateIssue i (ngoUpdActor (ngoLookup st.ngos ngoEmail)
                    ngoEmail) t statusOpt now).title⟩]
        else [] := by
    simp only [ngoUpdateEndpoint, hIssue]
    exact reporterEmails_eq _ _ _ e hE3 hne
  constructor
  · intro p hp hoff
    have hg : notifyGate st.profiles e = false := by
      simp [notifyGate, hp, hoff]
    rw [m1, m2, m3, m4, hg]
    simp
  · intro hOn
    have hg : notifyGate st.profiles e = true := by
      rcases hOn with hnone | ⟨p, hp, hon⟩
      · simp [notifyGate, hnone]
      · simp [notifyGate, hp, hon]
    rw [m1, m2, m3, m4, hg]
    simp

/-- A profile for the sample reporter with e-mail notifications turned
off. -/
def profileOff : Profile :=
  { fullName := "Asha", email := "a@x.com", notifyByEmail := false }

/-- The sample store with the opted-out reporter profile. -/
def offStore : Store :=
  { issues := [("a1", sampleIssue)], ngos := [sampleNgo]
    profiles := [profileOff] }

/-- Witness for C9 at the opted-out store. -/
theorem notification_gate_witness :
    (∀ p, findProfile offStore.profiles "a@x.com" = some p →
        p.notifyByEmail = false →
      (claimEndpoint offStore "a1" "GreenCity").2.2 = []
      ∧ (statusPutEndpoint offStore "a1" "resolved" 13).2.2 = []
      ∧ (addUpdateEndpoint offStore "a1" (some "note") (some "resolved")
          (some "admin") 13).2.2 = []
      ∧ (ngoUpdateEndpoint offStore "a1" (some "g@x.org") (some "note")
          (some "resolved") 13).2.2 = []) ∧
    ((findProfile offStore.profiles "a@x.com" = none
        ∨ ∃ p, findProfile offStore.profiles "a@x.com" = some p
            ∧ p.notifyByEmail = true) →
      (claimEndpoint offStore "a1" "GreenCity").2.2.map EmailMsg.dest
          = ["a@x.com"]
      ∧ (statusPutEndpoint offStore "a1" "resolved" 13).2.2.map EmailMsg.dest
          = ["a@x.com"]
      ∧ (addUpdateEndpoint offStore "a1" (some "note") (some "resolved")
          (some "admin") 13).2.2.map EmailMsg.dest = ["a@x.com"]
      ∧ (ngoUpdateEndpoint offStore "a1" (some "g@x.org") (some "note")
          (some "resolved") 13).2.2.map EmailMsg.dest = ["a@x.com"]) :=
  notification_gate offStore "a1" "GreenCity" "a@x.com" sampleIssue
    "resolved" (some "note") (some "admin") (some "g@x.org")
    (some "resolved") 13 (by decide) (by decide) (by decide)

/-! ### The claim-field invariant (C7) -/

/-- The create request body whose stored issue, once claimed, is the
`claimedIssue` fixture. -/
def cexBody : CreateBody :=
  { title := "Pothole on Main St"
    description := "Deep pothole near the crossing"
    category := some "pothole", status := none, reportedBy := some "Asha"
    reporterEmail := none, reportedAt := some 1000
    verificationCount := none, priority := none, statusHistory := none
    updates := none }

/-- Counterexample to claim C7 as stated: starting from a created and then
plainly claimed issue (a state reachable through the listed operations),
one generic `PUT /api/issues/:id` carrying `claimStatus: 'none'` leaves
`claimedByNGO` non-empty while `claimStatus` becomes `none`, violating the
invariant. -/
theorem claim_invariant_put_cex :
    createIssue cexBody 1000
        = some { sampleIssue with reporterEmail := none }
    ∧ plainClaimIssue { sampleIssue with reporterEmail := none } "GreenCity"
        = claimedIssue
    ∧ (putEndpoint claimedStore "a3" ⟨none, none, some "none", none⟩).1
        = .ok (applyPutBody claimedIssue ⟨none, none, some "none", none⟩)
    ∧ (applyPutBody claimedIssue ⟨none, none, some "none", none⟩).claimedByNGO
        = "GreenCity"
    ∧ (applyPutBody claimedIssue ⟨none, none, some "none", none⟩).claimStatus
        = "none" := by
  decide

/-- Issue states reachable through the operations of the spec other than
the generic `PUT /api/issues/:id`: creation, either claim endpoint (with a
non-empty NGO name — the NGO schema's `required: true` rejects empty
names), admin status change, add-update, and NGO update. -/
inductive ReachableIssue : Issue → Prop where
  | created : ∀ b now i, createIssue b now = some i → ReachableIssue i
  | plainClaim : ∀ i n, ReachableIssue i → n ≠ "" →
      ReachableIssue (plainClaimIssue i n)
  | ngoClaim : ∀ i n now, ReachableIssue i → n ≠ "" →
      ReachableIssue (ngoClaimIssue i n now)
  | statusChange : ∀ i s now, ReachableIssue i →
      ReachableIssue (statusPutIssue i s now)
  | addUpd : ∀ i t s b now, ReachableIssue i →
      ReachableIssue (addUpdateIssue i t s b now)
  | ngoUpd : ∀ i a t s now, ReachableIssue i →
      ReachableIssue (ngoUpdateIssue i a t s now)

/-- Claim C7 (amended): for every issue state reachable through create,
either claim endpoint invoked with a non-empty NGO name, status change,
add-update and NGO update — but not the generic `PUT /api/issues/:id`,
which can break it — `claimedByNGO` is non-empty iff
`claimStatus ≠ none`. -/
theorem claim_invariant_reachable (i : Issue) (h : ReachableIssue i) :
    i.claimedByNGO ≠ "" ↔ i.claimStatus ≠ "none" := by
  induction h with
  | created b now i hc =>
      simp only [createIssue] at hc
      split at hc
      · injection hc with h'
        subst h'
        simp
      · cases hc
  | plainClaim i n _ hn ih => simp [plainClaimIssue, hn]
  | ngoClaim i n now _ hn ih => simp [ngoClaimIssue, hn]
  | statusChange i s now _ ih => simpa [statusPutIssue] using ih
  | addUpd i t s b now _ ih =>
      rw [(addUpdateIssue_frame i t s b now).2.1,
          (addUpdateIssue_frame i t s b now).2.2]
      exact ih
  | ngoUpd i a t s now _ ih =>
      rw [(ngoUpdateIssue_frame i a t s now).2.1,
          (ngoUpdateIssue_frame i a t s now).2.2]
      exact ih

/-- Witness for the amended C7 at a freshly created issue. -/
theorem claim_invariant_reachable_witness :
    minimalCreated.claimedByNGO ≠ "" ↔ minimalCreated.claimStatus ≠ "none" :=
  claim_invariant_reachable minimalCreated
    (.created minimalBody 100 minimalCreated (by decide))

end CityBeatFlow
